import Mathlib

/-!
# Verification of the mission-control state machine and socket gateway

Shallow embedding of `src/app/state/index.js`, which concatenates three
modules of the repository:

* the state machine (`registerReducer`, `callAction`, `getState`,
  lines 1-192),
* the socket gateway (`socket`, lines 193-310), and
* the socket authentication layer (`socketAuth`,
  `forbidNamespaceConnections`, `restoreNamespaceConnection`,
  lines 311-397).

JavaScript values are modelled by the inductive `Val`; snapshots and
registries are association lists with JavaScript property read/write
semantics (`jsGet`, `jsSet`).  The dispatcher is modelled twice: at value
level (`callAction`, producing the trace of the snapshot commit and the
emitted events in source order) and, for the defensive-copy questions, at
reference level over an explicit heap (`objectAssignAlloc`, `setProp`).
The per-connection authentication gate and gateway relay logic are
modelled as an explicit transition system (`Conn`, `stepConn`).
-/

namespace MissionControl

/-- A JavaScript value: the primitives, arrays and plain objects that flow
through the state machine.  Objects are association lists of own
enumerable properties in insertion order. -/
inductive Val where
  | undef : Val
  | null : Val
  | boolean : Bool → Val
  | num : Int → Val
  | str : String → Val
  | arr : List Val → Val
  | obj : List (String × Val) → Val
deriving Repr

mutual

/-- Structural (deep) equality test on `Val`. -/
def Val.beq : Val → Val → Bool
  | .undef, .undef => true
  | .null, .null => true
  | .boolean a, .boolean b => a == b
  | .num a, .num b => a == b
  | .str a, .str b => a == b
  | .arr a, .arr b => Val.beqList a b
  | .obj a, .obj b => Val.beqFields a b
  | _, _ => false

/-- Deep equality on lists of values. -/
def Val.beqList : List Val → List Val → Bool
  | [], [] => true
  | x :: xs, y :: ys => Val.beq x y && Val.beqList xs ys
  | _, _ => false

/-- Deep equality on property lists. -/
def Val.beqFields : List (String × Val) → List (String × Val) → Bool
  | [], [] => true
  | (k1, v1) :: xs, (k2, v2) :: ys => k1 == k2 && Val.beq v1 v2 && Val.beqFields xs ys
  | _, _ => false

end

mutual

/-- `Val.beq` decides structural equality (proof term, stated as a
definition so the decidability instance below can be set up before the
theorems of this development). -/
def Val.beq_iff : ∀ a b : Val, Val.beq a b = true ↔ a = b
  | .undef, b => by cases b <;> simp [Val.beq]
  | .null, b => by cases b <;> simp [Val.beq]
  | .boolean a, b => by cases b <;> simp [Val.beq]
  | .num a, b => by cases b <;> simp [Val.beq]
  | .str a, b => by cases b <;> simp [Val.beq]
  | .arr a, b => by
      cases b <;> simp [Val.beq]
      exact Val.beqList_iff a _
  | .obj a, b => by
      cases b <;> simp [Val.beq]
      exact Val.beqFields_iff a _

/-- `Val.beqList` decides equality of value lists. -/
def Val.beqList_iff : ∀ a b : List Val, Val.beqList a b = true ↔ a = b
  | [], b => by cases b <;> simp [Val.beqList]
  | x :: xs, b => by
      cases b with
      | nil => simp [Val.beqList]
      | cons y ys =>
        simp [Val.beqList, Bool.and_eq_true, Val.beq_iff x y, Val.beqList_iff xs ys]

/-- `Val.beqFields` decides equality of property lists. -/
def Val.beqFields_iff : ∀ a b : List (String × Val), Val.beqFields a b = true ↔ a = b
  | [], b => by cases b <;> simp [Val.beqFields]
  | (k1, v1) :: xs, b => by
      cases b with
      | nil => simp [Val.beqFields]
      | cons y ys =>
        obtain ⟨k2, v2⟩ := y
        simp [Val.beqFields, Bool.and_eq_true, Val.beq_iff v1 v2, Val.beqFields_iff xs ys,
          and_assoc]

end

instance : DecidableEq Val := fun a b =>
  decidable_of_iff (Val.beq a b = true) (Val.beq_iff a b)

/-- A snapshot of the store (also the shape of diff objects): the own
enumerable properties of a plain JavaScript object. -/
abbrev Fields := List (String × Val)

/-- Property lookup on an association list (first binding wins; on objects
built with `jsSet` keys are unique). -/
def jsGet {α : Type} : List (String × α) → String → Option α
  | [], _ => none
  | (k1, v) :: rest, k => if k1 = k then some v else jsGet rest k

/-- Property write `o[k] = v`: overwrite in place when the key is present,
append otherwise (JavaScript insertion-order semantics). -/
def jsSet {α : Type} : List (String × α) → String → α → List (String × α)
  | [], k, v => [(k, v)]
  | (k1, v1) :: rest, k, v =>
      if k1 = k then (k1, v) :: rest else (k1, v1) :: jsSet rest k v

/-- Property read `o[k]` as an expression: absent keys read as undefined. -/
def getField (fs : Fields) (k : String) : Val :=
  (jsGet fs k).getD Val.undef

/-- JavaScript truthiness: undefined, null, false, 0 and the empty string
are falsy; every array and object is truthy. -/
def truthy : Val → Bool
  | .undef => false
  | .null => false
  | .boolean b => b
  | .num n => n != 0
  | .str s => s != ("")
  | .arr _ => true
  | .obj _ => true

/-- Key list with duplicates dropped, keeping the first occurrence (the
key order a JavaScript object would exhibit). -/
def dedupKeys (ks : List String) : List String :=
  ks.foldl (fun acc k => if acc.contains k then acc else acc ++ [k]) []

/-- Modelled from the spec: the diff engine is the external object-diff
dependency, whose source is not part of the repository.  Per spec section
4.3, a top-level key of either snapshot is included exactly when its value
differs by deep structural equality, and it is mapped to its new value (a
key absent from the new snapshot reads as undefined). -/
def diffSpec (a b : Fields) : Fields :=
  (dedupKeys (a.map Prod.fst ++ b.map Prod.fst)).filterMap
    (fun k => if getField a k = getField b k then none else some (k, getField b k))

/-- An entry of the action registry: the reducer and the validator handed
to `registerReducer` (source lines 60-65). -/
structure ActionDesc where
  reducer : Fields → Val → Fields
  validate : Val → Val

/-- The module-level `actions` object (source line 51). -/
abbrev Registry := List (String × ActionDesc)

/-- The mutable module state of `@state`: the `actions` registry and the
current `state` snapshot (source lines 51-52). -/
structure Store where
  actions : Registry
  state : Fields

/-- `registerReducer(action, reducer, validate)` (source lines 60-65):
`actions[action] = { reducer, validate }`.  The id is stored exactly as
given; no case normalization happens here. -/
def registerReducer (acts : Registry) (action : String)
    (reducer : Fields → Val → Fields) (validate : Val → Val) : Registry :=
  jsSet acts action ⟨reducer, validate⟩

/-- `getState()` (source lines 182-184): the current snapshot, returned by
reference. -/
def getState (st : Store) : Fields :=
  st.state

/-- One observable step of a dispatch: the snapshot replacement (source
line 138) or one `emitter.emit(topic, payload)` call. -/
inductive TraceEvent where
  | commit (snapshot : Fields)
  | emit (topic : String) (payload : Val)
deriving DecidableEq, Repr

/-- `Object.assign(\x7b\x7d, newState)` at snapshot (value) level: every own
enumerable field is re-inserted into a fresh object.  Reference-level
consequences of the copy being one level deep are modelled separately on
the heap below. -/
def objectAssignEmpty (fs : Fields) : Fields :=
  fs.foldl (fun acc kv => jsSet acc kv.1 kv.2) []

/-- The body of `callAction` after the key has been case-normalized
(source lines 117-166).  Returns the store after the call together with
the trace, in source order: nothing on the unknown-action return (lines
118-121) and the failed-validation return (lines 125-128); otherwise the
snapshot commit (line 138) followed by one `update:<key>` emit per diff
key (lines 145-149), the `update` emit (lines 152-156) and the
`action:<key>` emit (lines 157-162).  The uppercased key cannot collide
with the lowercase prototype properties of an object literal, so the
JavaScript `in` test is own-key lookup here. -/
def callActionNorm (actionKey : String) (data : Val) (st : Store) :
    Store × List TraceEvent :=
  match jsGet st.actions actionKey with
  | none => (st, [])
  | some action =>
    if truthy (action.validate data) = false then (st, [])
    else
      let oldState := st.state
      let newState := action.reducer oldState data
      let committed := objectAssignEmpty newState
      let stateDiff := diffSpec oldState newState
      let diffKeys := stateDiff.map Prod.fst
      ({ st with state := committed },
        TraceEvent.commit committed ::
        (stateDiff.map (fun kv =>
          TraceEvent.emit (("update:") ++ kv.1) (Val.obj [(("state"), Val.obj stateDiff)]))) ++
        [TraceEvent.emit ("update")
            (Val.obj [(("state"), Val.obj stateDiff),
                      (("action"), Val.str actionKey),
                      (("diff"), Val.arr (diffKeys.map Val.str))]),
         TraceEvent.emit (("action:") ++ actionKey)
            (Val.obj [(("state"), Val.obj newState),
                      (("action"), Val.str actionKey),
                      (("actionData"), data),
                      (("diff"), Val.arr (diffKeys.map Val.str))])])

/-- String uppercasing, character by character (the effect of the
JavaScript `toUpperCase` on the ASCII action ids of this code base). -/
def toUpperJS (s : String) : String :=
  String.mk (s.data.map Char.toUpper)

/-- A thrown JavaScript exception, as far as the model needs one. -/
inductive JSError where
  | typeError
deriving DecidableEq, Repr

/-- `actionKey.toUpperCase()` (source line 115): a `TypeError` unless the
receiver is a string (undefined and null have no properties; numbers,
booleans, arrays and plain objects have no `toUpperCase` method). -/
def toUpperCaseJS : Val → Except JSError String
  | .str s => .ok (toUpperJS s)
  | _ => .error JSError.typeError

/-- `callAction(actionKey, data)` (source lines 109-166): case-normalize
the key, then look up, validate, reduce, commit and emit. -/
def callAction (actionKey : Val) (data : Val) (st : Store) :
    Except JSError (Store × List TraceEvent) :=
  match toUpperCaseJS actionKey with
  | .error e => .error e
  | .ok key => .ok (callActionNorm key data st)

/-- The observable per-connection state of the socket layer: the
`socket.authenticated` flag (source line 332), membership in
`namespace.connected` (the broadcast recipient list, lines 371-396),
whether the auth timeout is still pending and how often `clearTimeout`
has run (lines 321-335), whether the gateway callback has installed the
per-client handlers (lines 219-281), the relay subscriptions held in the
`subscriptions` table (lines 220, 239-262), and whether the socket has
been disconnected. -/
structure Conn where
  authenticated : Bool
  inConnected : Bool
  timerActive : Bool
  clearCalls : Nat
  handlersInstalled : Bool
  subs : List String
  disconnected : Bool
deriving DecidableEq, Repr

/-- An input event a connection can experience: a credential presentation
(`valid` is the outcome of `jwt.verify`, lines 334-342), the auth timeout
firing (lines 321-331), a client `subscribe` or `unsubscribe` message
(lines 239-272), a state-machine publish relayed by `state.subscribe`
(lines 244-261), a namespace broadcast fan-out, or a transport
disconnect (lines 275-280). -/
inductive CEvent where
  | authenticate (valid : Bool)
  | timerFire
  | clientSubscribe (event : String)
  | clientUnsubscribe (event : String)
  | busPublish (topic : String)
  | broadcast (topic : String)
  | disconnect
deriving DecidableEq, Repr

/-- A message emitted to the client socket. -/
inductive COut where
  | initialState
  | authenticatedMsg
  | unauthorized (reason : String)
  | relayed (event : String)
  | allEvents (event : String)
  | broadcastDelivery (topic : String)
deriving DecidableEq, Repr

/-- The `connection` handler of `socketAuth` (source lines 318-332): a
fresh socket gets the 15 second auth timeout and `authenticated = false`;
`forbidNamespaceConnections` (lines 371-381) immediately removes the
unauthenticated socket from `namespace.connected`, so broadcasts do not
reach it.  The gateway callback is not invoked here, so nothing is
emitted to the client at connect time. -/
def connectConn : Conn × List COut :=
  ({ authenticated := false, inConnected := false, timerActive := true, clearCalls := 0,
     handlersInstalled := false, subs := [], disconnected := false }, [])

/-- One transition of a connection, translated from the `socketAuth` and
`socket` modules:

* `authenticate`: `clearTimeout(authTimeoutId)` runs first, before the
  token is verified (line 335).  On success `socket.authenticated` is set,
  `onAuthentication(socket)` runs the gateway callback — whose first
  statement emits `initial-state` and which installs the `action`,
  `subscribe`, `unsubscribe` and `disconnect` handlers (lines 219-281) —
  then `restoreNamespaceConnection` re-adds the socket to
  `namespace.connected` and `authenticated` is emitted (lines 344-354).
  On failure `unauthorized` with reason `INVALID_TOKEN` is emitted and the
  socket is disconnected (lines 355-366).
* `timerFire`: only a still-armed timer can fire; it emits `unauthorized`
  with reason `TIMEOUT` and disconnects (lines 321-331).
* `clientSubscribe` / `clientUnsubscribe`: handled only once the gateway
  callback has installed the handlers; re-subscribing to a held event is a
  no-op (lines 239-272).
* `busPublish`: the relays registered in `subscriptions` forward the
  event — `relaySingleEvent` for an exact topic, `relayAllEvents` under
  `all-events` for the wildcard (lines 244-261).
* `broadcast`: namespace fan-out reaches exactly the sockets present in
  `namespace.connected` (lines 371-381).
* `disconnect`: every stored unsubscribe handle runs and the table is
  discarded (lines 275-280). -/
def stepConn (c : Conn) (e : CEvent) : Conn × List COut :=
  if c.disconnected then (c, []) else
  match e with
  | .authenticate valid =>
    let c1 : Conn := { c with timerActive := false, clearCalls := c.clearCalls + 1 }
    if valid then
      ({ c1 with authenticated := true, handlersInstalled := true, inConnected := true },
        [COut.initialState, COut.authenticatedMsg])
    else
      ({ c1 with disconnected := true, inConnected := false },
        [COut.unauthorized ("INVALID_TOKEN")])
  | .timerFire =>
    if c.timerActive then
      ({ c with timerActive := false, disconnected := true, inConnected := false },
        [COut.unauthorized ("TIMEOUT")])
    else (c, [])
  | .clientSubscribe ev =>
    if c.handlersInstalled then
      if c.subs.contains ev then (c, [])
      else ({ c with subs := c.subs ++ [ev] }, [])
    else (c, [])
  | .clientUnsubscribe ev =>
    if c.handlersInstalled then
      ({ c with subs := c.subs.filter (fun x => x ≠ ev) }, [])
    else (c, [])
  | .busPublish topic =>
    (c, (if c.subs.contains topic then [COut.relayed topic] else []) ++
        (if c.subs.contains ("*") then [COut.allEvents topic] else []))
  | .broadcast topic =>
    (c, if c.inConnected then [COut.broadcastDelivery topic] else [])
  | .disconnect =>
    ({ c with disconnected := true, inConnected := false, subs := [] }, [])

/-- The connection state reached from a fresh connection after a sequence
of events. -/
def runConn (evs : List CEvent) : Conn :=
  evs.foldl (fun c e => (stepConn c e).1) connectConn.1

/-- A heap cell content at reference level: a primitive stored directly,
or a reference to another heap object. -/
inductive HVal where
  | prim (v : Val)
  | ref (r : Nat)
deriving DecidableEq, Repr

/-- The own properties of a heap object. -/
abbrev HFields := List (String × HVal)

/-- A heap: object identities mapped to their property lists. -/
abbrev Heap := List (Nat × HFields)

/-- The property list of the object behind a reference. -/
def heapGet : Heap → Nat → HFields
  | [], _ => []
  | (r1, fs) :: rest, r => if r1 = r then fs else heapGet rest r

/-- Replace (or create) the object behind a reference. -/
def heapSet : Heap → Nat → HFields → Heap
  | [], r, fs => [(r, fs)]
  | (r1, fs1) :: rest, r, fs =>
      if r1 = r then (r1, fs) :: rest else (r1, fs1) :: heapSet rest r fs

/-- A property assignment `o.f = v` performed through a reference `r`
held by arbitrary outside code. -/
def setProp (h : Heap) (r : Nat) (f : String) (v : HVal) : Heap :=
  heapSet h r (jsSet (heapGet h r) f v)

/-- `Object.assign(\x7b\x7d, src)` at reference level (source line 138): a
fresh object is allocated and the own fields of `src` are copied into it
one level deep — nested references are copied as references, so nested
objects stay shared between `src` and the copy. -/
def objectAssignAlloc (h : Heap) (src : Nat) (fresh : Nat) : Heap :=
  heapSet h fresh (heapGet h src)

/-- Fuel-bounded deep read of a heap value, used to observe the structure
reachable from the committed snapshot. -/
def readHVal (h : Heap) : Nat → HVal → Val
  | _, .prim v => v
  | 0, .ref _ => Val.undef
  | Nat.succ n, .ref r => Val.obj ((heapGet h r).map (fun kv => (kv.1, readHVal h n kv.2)))

/-- A demo reducer for concrete witnesses: sets `count` to 1. -/
def demoReducer : Fields → Val → Fields :=
  fun s _ => jsSet s ("count") (Val.num 1)

/-- A demo validator for concrete witnesses: always true. -/
def demoValidate : Val → Val :=
  fun _ => Val.boolean true

/-- A demo validator for concrete witnesses: always false. -/
def demoReject : Val → Val :=
  fun _ => Val.boolean false

/-- A demo heap for the defensive-copy counterexample: object 0 is the
candidate snapshot returned by a mutator, whose `lights` field references
the nested object 1. -/
def demoHeap : Heap :=
  [(0, [(("lights"), HVal.ref 1)]),
   (1, [(("on"), HVal.prim (Val.boolean false))])]

/-- The gate invariant of an unauthenticated connection: no relay
subscription is held, the socket is absent from the broadcast recipient
list, and the gateway callback has not run. -/
def ConnInv (c : Conn) : Prop :=
  c.authenticated = false →
    c.subs = [] ∧ c.inConnected = false ∧ c.handlersInstalled = false

/-- The timer invariant: once a connection is authenticated its auth
timeout is no longer armed. -/
def TimerInv (c : Conn) : Prop :=
  c.authenticated = true → c.timerActive = false

/-! ## Helper lemmas -/

/-- Writing a key and reading it back yields the written entry. -/
theorem jsGet_jsSet_self {α : Type} (l : List (String × α)) (k : String) (v : α) :
    jsGet (jsSet l k v) k = some v := by
  induction l with
  | nil => simp [jsSet, jsGet]
  | cons hd tl ih =>
    obtain ⟨k1, v1⟩ := hd
    by_cases h : k1 = k
    · simp [jsSet, jsGet, h]
    · simp [jsSet, jsGet, h, ih]

/-- The diff of a snapshot with itself is empty. -/
theorem diffSpec_self (S : Fields) : diffSpec S S = [] := by
  simp [diffSpec]

/-! ## C2: unknown action ids -/

/-- C2: dispatching an action id absent from the registry after
normalization returns with the snapshot unchanged and emits no event on
any topic (in particular no update-per-key, update or action event). -/
theorem callAction_unknown_action_no_effect (actionKey : String) (data : Val) (st : Store)
    (h : jsGet st.actions (toUpperJS actionKey) = none) :
    callAction (Val.str actionKey) data st = Except.ok (st, []) := by
  simp [callAction, toUpperCaseJS, callActionNorm, h]

/-- C2 witness: a dispatch of the unregistered id foo against the empty
store is a no-op. -/
theorem callAction_unknown_action_no_effect_witness :
    jsGet (Store.mk [] []).actions (toUpperJS ("foo")) = none ∧
    callAction (Val.str ("foo")) Val.undef (Store.mk [] []) = Except.ok (Store.mk [] [], []) :=
  ⟨rfl, callAction_unknown_action_no_effect ("foo") Val.undef (Store.mk [] []) rfl⟩

/-! ## C3: failed validation and the role of the validator verdict -/

/-- C3: a falsy validator verdict returns with the snapshot unchanged and
no event emitted; the verdict is consulted only through its truthiness —
two registrations agreeing on the reducer whose validators are equally
truthy on the payload produce the same committed snapshot and the same
trace — and on success the reducer is applied to the original payload,
never to anything derived from the validator result. -/
theorem callAction_validation_gate (key : String) (data : Val)
    (st1 st2 : Store) (a1 a2 : ActionDesc)
    (h1 : jsGet st1.actions (toUpperJS key) = some a1)
    (h2 : jsGet st2.actions (toUpperJS key) = some a2)
    (hred : a1.reducer = a2.reducer) (hst : st1.state = st2.state)
    (htr : truthy (a1.validate data) = truthy (a2.validate data)) :
    (truthy (a1.validate data) = false →
      callAction (Val.str key) data st1 = Except.ok (st1, [])) ∧
    ((callActionNorm (toUpperJS key) data st1).1.state =
        (callActionNorm (toUpperJS key) data st2).1.state ∧
      (callActionNorm (toUpperJS key) data st1).2 = (callActionNorm (toUpperJS key) data st2).2) ∧
    (truthy (a1.validate data) = true →
      (callActionNorm (toUpperJS key) data st1).1.state =
        objectAssignEmpty (a1.reducer st1.state data)) := by
  refine ⟨?_, ?_, ?_⟩
  · intro hfalse
    simp [callAction, toUpperCaseJS, callActionNorm, h1, hfalse]
  · by_cases hv : truthy (a1.validate data) = true
    · have hv2 : truthy (a2.validate data) = true := by rw [← htr]; exact hv
      simp [callActionNorm, h1, h2, hv, hv2, hred, hst]
    · have hv1 : truthy (a1.validate data) = false := by
        cases hb : truthy (a1.validate data)
        · rfl
        · exact absurd hb hv
      have hv2 : truthy (a2.validate data) = false := by rw [← htr]; exact hv1
      simp [callActionNorm, h1, h2, hv1, hv2, hst]
  · intro htrue
    simp [callActionNorm, h1, htrue]

/-- C3 witness: an always-false validator blocks the dispatch, and the
outcome agrees with a second store carrying a different but equally falsy
validator. -/
theorem callAction_validation_gate_witness :
    callAction (Val.str ("INC")) Val.undef
        (Store.mk (registerReducer [] ("INC") demoReducer demoReject) []) =
      Except.ok (Store.mk (registerReducer [] ("INC") demoReducer demoReject) [], []) := by
  have h := callAction_validation_gate ("INC") Val.undef
    (Store.mk (registerReducer [] ("INC") demoReducer demoReject) [])
    (Store.mk (registerReducer [] ("INC") demoReducer (fun _ => Val.num 0)) [])
    ⟨demoReducer, demoReject⟩ ⟨demoReducer, fun _ => Val.num 0⟩
    (by rfl) (by rfl) rfl rfl rfl
  exact h.1 rfl

/-! ## C4: commit before publish, fixed emit order and payloads -/

/-- C4: a successful dispatch first replaces the snapshot with the copied
candidate and only then emits, in fixed order: one update-per-changed-key
event whose payload carries the full diff object, then a single update
event with the diff, the action id and the changed-key list, then a
single action event with the new snapshot, the action id, the original
payload and the changed-key list. -/
theorem callAction_success_commit_then_emit_order (key : String) (data : Val) (st : Store)
    (a : ActionDesc)
    (hfind : jsGet st.actions (toUpperJS key) = some a)
    (hvalid : truthy (a.validate data) = true) :
    callAction (Val.str key) data st =
      Except.ok
        ({ st with state := objectAssignEmpty (a.reducer st.state data) },
          TraceEvent.commit (objectAssignEmpty (a.reducer st.state data)) ::
          ((diffSpec st.state (a.reducer st.state data)).map (fun kv =>
            TraceEvent.emit (("update:") ++ kv.1)
              (Val.obj [(("state"), Val.obj (diffSpec st.state (a.reducer st.state data)))]))) ++
          [TraceEvent.emit ("update")
              (Val.obj [(("state"), Val.obj (diffSpec st.state (a.reducer st.state data))),
                        (("action"), Val.str (toUpperJS key)),
                        (("diff"), Val.arr
                          (((diffSpec st.state (a.reducer st.state data)).map Prod.fst).map
                            Val.str))]),
           TraceEvent.emit (("action:") ++ toUpperJS key)
              (Val.obj [(("state"), Val.obj (a.reducer st.state data)),
                        (("action"), Val.str (toUpperJS key)),
                        (("actionData"), data),
                        (("diff"), Val.arr
                          (((diffSpec st.state (a.reducer st.state data)).map Prod.fst).map
                            Val.str))])]) := by
  simp [callAction, toUpperCaseJS, callActionNorm, hfind, hvalid]

/-- C4 witness: the counter-increment scenario, evaluated. -/
theorem callAction_success_commit_then_emit_order_witness :
    callAction (Val.str ("INC")) Val.undef
        (Store.mk (registerReducer [] ("INC") demoReducer demoValidate)
          [(("count"), Val.num 0)]) =
      Except.ok
        (Store.mk (registerReducer [] ("INC") demoReducer demoValidate)
          [(("count"), Val.num 1)],
          [TraceEvent.commit [(("count"), Val.num 1)],
           TraceEvent.emit ("update:count")
             (Val.obj [(("state"), Val.obj [(("count"), Val.num 1)])]),
           TraceEvent.emit ("update")
             (Val.obj [(("state"), Val.obj [(("count"), Val.num 1)]),
                       (("action"), Val.str ("INC")),
                       (("diff"), Val.arr [Val.str ("count")])]),
           TraceEvent.emit ("action:INC")
             (Val.obj [(("state"), Val.obj [(("count"), Val.num 1)]),
                       (("action"), Val.str ("INC")),
                       (("actionData"), Val.undef),
                       (("diff"), Val.arr [Val.str ("count")])])]) := by
  have h := callAction_success_commit_then_emit_order ("INC") Val.undef
    (Store.mk (registerReducer [] ("INC") demoReducer demoValidate)
      [(("count"), Val.num 0)])
    ⟨demoReducer, demoValidate⟩ rfl rfl
  rw [h]
  rfl

/-! ## C9: empty diff of equal snapshots, emits of a no-op dispatch -/

/-- C9: the diff of any snapshot with itself is empty, and a successful
dispatch whose reducer hands back a snapshot structurally equal to the old
one commits but emits no update-per-key event, while the update and
action events still fire carrying an empty diff and an empty changed-key
list. -/
theorem diff_self_empty_and_noop_dispatch :
    (∀ S : Fields, diffSpec S S = []) ∧
    (∀ (key : String) (data : Val) (st : Store) (a : ActionDesc),
      jsGet st.actions key = some a →
      truthy (a.validate data) = true →
      a.reducer st.state data = st.state →
      callActionNorm key data st =
        ({ st with state := objectAssignEmpty st.state },
          [TraceEvent.commit (objectAssignEmpty st.state),
           TraceEvent.emit ("update")
             (Val.obj [(("state"), Val.obj []),
                       (("action"), Val.str key),
                       (("diff"), Val.arr [])]),
           TraceEvent.emit (("action:") ++ key)
             (Val.obj [(("state"), Val.obj st.state),
                       (("action"), Val.str key),
                       (("actionData"), data),
                       (("diff"), Val.arr [])])])) := by
  refine ⟨diffSpec_self, ?_⟩
  intro key data st a hfind hvalid hnoop
  simp [callActionNorm, hfind, hvalid, hnoop, diffSpec_self]

/-- C9 witness: an identity reducer dispatched against a one-key store
emits only the update and action events, both with an empty diff. -/
theorem diff_self_empty_and_noop_dispatch_witness :
    callActionNorm ("KEEP") Val.undef
        (Store.mk [(("KEEP"), ActionDesc.mk (fun s _ => s) demoValidate)]
          [(("count"), Val.num 0)]) =
      (Store.mk [(("KEEP"), ActionDesc.mk (fun s _ => s) demoValidate)]
          [(("count"), Val.num 0)],
        [TraceEvent.commit [(("count"), Val.num 0)],
         TraceEvent.emit ("update")
           (Val.obj [(("state"), Val.obj []),
                     (("action"), Val.str ("KEEP")),
                     (("diff"), Val.arr [])]),
         TraceEvent.emit ("action:KEEP")
           (Val.obj [(("state"), Val.obj [(("count"), Val.num 0)]),
                     (("action"), Val.str ("KEEP")),
                     (("actionData"), Val.undef),
                     (("diff"), Val.arr [])])]) := by
  have h := diff_self_empty_and_noop_dispatch.2 ("KEEP") Val.undef
    (Store.mk [(("KEEP"), ActionDesc.mk (fun s _ => s) demoValidate)]
      [(("count"), Val.num 0)])
    ⟨fun s _ => s, demoValidate⟩ rfl rfl rfl
  rw [h]
  rfl

/-! ## C10: dispatch is not fire-and-forget safe on non-string keys -/

/-- C10: a non-string action key (undefined in particular, as sent by a
client whose action message lacks the action field) makes callAction throw
a TypeError at the case-normalization step, independently of the registry
and the snapshot, so before any lookup; a string key always passes
normalization and reaches the registry lookup without throwing. -/
theorem callAction_type_error_on_nonstring :
    (∀ (data : Val) (st : Store),
      callAction Val.undef data st = Except.error JSError.typeError) ∧
    (∀ k : Val, (∀ s : String, k ≠ Val.str s) →
      ∀ (data : Val) (st : Store),
        callAction k data st = Except.error JSError.typeError) ∧
    (∀ (s : String) (data : Val) (st : Store),
      callAction (Val.str s) data st = Except.ok (callActionNorm (toUpperJS s) data st)) := by
  refine ⟨fun _ _ => rfl, ?_, fun _ _ _ => rfl⟩
  intro k hk data st
  cases k with
  | str s => exact absurd rfl (hk s)
  | undef => rfl
  | null => rfl
  | boolean b => rfl
  | num n => rfl
  | arr l => rfl
  | obj fs => rfl

/-- C10 witness: a numeric key throws the TypeError against a store with
a registered action. -/
theorem callAction_type_error_on_nonstring_witness :
    callAction (Val.num 3) Val.undef
        (Store.mk (registerReducer [] ("INC") demoReducer demoValidate) []) =
      Except.error JSError.typeError :=
  callAction_type_error_on_nonstring.2.1 (Val.num 3)
    (fun _ h => Val.noConfusion h) Val.undef
    (Store.mk (registerReducer [] ("INC") demoReducer demoValidate) [])

/-! ## C6: registration is not case-normalized -/

/-- C6 fails on the code: registering under a lowercase id does not store
the pair under the uppercased id, and the subsequent dispatch of that very
id (case-normalized at lookup time) misses the registry, leaving the
store untouched and emitting nothing. -/
theorem registerReducer_no_case_normalization :
    jsGet (registerReducer [] ("foo") demoReducer demoValidate) ("FOO") = none ∧
    callAction (Val.str ("foo")) Val.undef
        (Store.mk (registerReducer [] ("foo") demoReducer demoValidate) []) =
      Except.ok (Store.mk (registerReducer [] ("foo") demoReducer demoValidate) [], []) :=
  ⟨rfl, rfl⟩

/-- C6 amended: registerReducer stores the pair under the id exactly as
given, and since callAction uppercases only at lookup, a dispatch in any
letter case finds the registration exactly when the registered id equals
the uppercased dispatch key. -/
theorem registerReducer_verbatim_lookup_uppercased (acts : Registry) (actionId s : String)
    (reducer : Fields → Val → Fields) (validate : Val → Val)
    (hcase : toUpperJS s = actionId) :
    jsGet (registerReducer acts actionId reducer validate) actionId =
      some ⟨reducer, validate⟩ ∧
    toUpperCaseJS (Val.str s) = Except.ok actionId := by
  refine ⟨jsGet_jsSet_self acts actionId ⟨reducer, validate⟩, ?_⟩
  simp [toUpperCaseJS, hcase]

/-- C6 amended witness: an all-caps registration is found by a lowercase
dispatch key. -/
theorem registerReducer_verbatim_lookup_uppercased_witness :
    jsGet (registerReducer [] ("FOO") demoReducer demoValidate) ("FOO") =
      some ⟨demoReducer, demoValidate⟩ ∧
    toUpperCaseJS (Val.str ("foo")) = Except.ok ("FOO") :=
  registerReducer_verbatim_lookup_uppercased [] ("FOO") ("foo")
    demoReducer demoValidate (by rfl)

/-! ## Connection invariants -/

/-- One step preserves the unauthenticated-gate invariant. -/
theorem stepConn_connInv (c : Conn) (e : CEvent) (h : ConnInv c) :
    ConnInv (stepConn c e).1 := by
  unfold ConnInv at h ⊢
  cases e <;> simp only [stepConn] <;> split_ifs <;> simp_all

/-- Every reachable connection state satisfies the gate invariant. -/
theorem foldl_connInv : ∀ (evs : List CEvent) (c : Conn), ConnInv c →
    ConnInv (evs.foldl (fun c e => (stepConn c e).1) c)
  | [], _, h => h
  | e :: evs, c, h => foldl_connInv evs (stepConn c e).1 (stepConn_connInv c e h)

/-- The gate invariant along any run from a fresh connection. -/
theorem runConn_connInv (evs : List CEvent) : ConnInv (runConn evs) :=
  foldl_connInv evs connectConn.1 (fun _ => ⟨rfl, rfl, rfl⟩)

/-- One step preserves the timer invariant. -/
theorem stepConn_timerInv (c : Conn) (e : CEvent) (h : TimerInv c) :
    TimerInv (stepConn c e).1 := by
  unfold TimerInv at h ⊢
  cases e <;> simp only [stepConn] <;> split_ifs <;> simp_all

/-- Every reachable connection state satisfies the timer invariant. -/
theorem foldl_timerInv : ∀ (evs : List CEvent) (c : Conn), TimerInv c →
    TimerInv (evs.foldl (fun c e => (stepConn c e).1) c)
  | [], _, h => h
  | e :: evs, c, h => foldl_timerInv evs (stepConn c e).1 (stepConn_timerInv c e h)

/-- The timer invariant along any run from a fresh connection. -/
theorem runConn_timerInv (evs : List CEvent) : TimerInv (runConn evs) :=
  foldl_timerInv evs connectConn.1 (fun hc => by cases hc)

/-! ## C1: no delivery while unauthenticated -/

/-- C1: after any sequence of events, a connection that is still not
authenticated receives no delivery from a state-machine publish (it holds
no relay subscription) and none from a namespace broadcast fan-out (it
was removed from the connected list), so deliveries can begin only after
the transition to authenticated. -/
theorem pending_connection_receives_no_deliveries (evs : List CEvent) (topic : String)
    (h : (runConn evs).authenticated = false) :
    (stepConn (runConn evs) (CEvent.busPublish topic)).2 = [] ∧
    (stepConn (runConn evs) (CEvent.broadcast topic)).2 = [] := by
  obtain ⟨hsubs, hconn, -⟩ := runConn_connInv evs h
  constructor <;> simp [stepConn, hsubs, hconn]

/-- C1 witness: a fresh connection that was sent a subscribe message
before authenticating receives nothing from a matching publish or a
broadcast. -/
theorem pending_connection_receives_no_deliveries_witness :
    (runConn [CEvent.clientSubscribe ("update:lights")]).authenticated = false ∧
    (stepConn (runConn [CEvent.clientSubscribe ("update:lights")])
        (CEvent.busPublish ("update:lights"))).2 = [] ∧
    (stepConn (runConn [CEvent.clientSubscribe ("update:lights")])
        (CEvent.broadcast ("update:lights"))).2 = [] :=
  ⟨rfl, pending_connection_receives_no_deliveries
    [CEvent.clientSubscribe ("update:lights")] ("update:lights") rfl⟩

/-! ## C7: timeout cancellation discipline -/

/-- C7 fails on the code: `clearTimeout` is the first statement of the
authenticate handler, so a credential presentation that fails verification
also cancels the pending timeout — cancellation is not reserved to
successful authentication.  On a fresh connection the timer is armed; one
invalid presentation cancels it while leaving the connection
unauthenticated. -/
theorem auth_timer_cleared_on_failed_auth :
    connectConn.1.timerActive = true ∧
    (stepConn connectConn.1 (CEvent.authenticate false)).1.clearCalls = 1 ∧
    (stepConn connectConn.1 (CEvent.authenticate false)).1.timerActive = false ∧
    (stepConn connectConn.1 (CEvent.authenticate false)).1.authenticated = false := by
  decide

/-- C7 amended: the timeout is cancelled on every credential
presentation, before verification and regardless of its outcome; the
timer can no longer fire once the connection has left the pending phase
(after authentication the armed flag is provably down, so the fire event
is a no-op); and a failed verification still emits unauthorized with
reason INVALID_TOKEN and closes the connection. -/
theorem auth_timer_discipline (evs : List CEvent) :
    ((runConn evs).disconnected = false →
      ∀ valid, (stepConn (runConn evs) (CEvent.authenticate valid)).1.clearCalls =
        (runConn evs).clearCalls + 1) ∧
    ((runConn evs).authenticated = true →
      stepConn (runConn evs) CEvent.timerFire = (runConn evs, [])) ∧
    ((runConn evs).disconnected = false →
      (stepConn (runConn evs) (CEvent.authenticate false)).2 =
        [COut.unauthorized ("INVALID_TOKEN")] ∧
      (stepConn (runConn evs) (CEvent.authenticate false)).1.disconnected = true) := by
  refine ⟨?_, ?_, ?_⟩
  · intro hd valid
    cases valid <;> simp [stepConn, hd]
  · intro ha
    have ht := runConn_timerInv evs ha
    by_cases hd : (runConn evs).disconnected = true
    · simp [stepConn, hd]
    · simp at hd
      simp [stepConn, hd, ht]
  · intro hd
    exact ⟨by simp [stepConn, hd], by simp [stepConn, hd]⟩

/-- C7 amended witness: the discipline, evaluated on the one-event run
consisting of a successful authentication. -/
theorem auth_timer_discipline_witness :
    (runConn [CEvent.authenticate true]).disconnected = false ∧
    (runConn [CEvent.authenticate true]).authenticated = true ∧
    (stepConn (runConn [CEvent.authenticate true]) (CEvent.authenticate false)).1.clearCalls =
      (runConn [CEvent.authenticate true]).clearCalls + 1 ∧
    stepConn (runConn [CEvent.authenticate true]) CEvent.timerFire =
      (runConn [CEvent.authenticate true], []) := by
  have h := auth_timer_discipline [CEvent.authenticate true]
  exact ⟨rfl, rfl, h.1 rfl false, h.2.1 rfl⟩

/-! ## C8: when the initial snapshot is sent -/

/-- C8 fails on the code: the gateway callback that emits the
initial-state message is handed to socketAuth as its onAuthentication
callback, so nothing at all is emitted to the client at transport connect
time — in particular no initial-state message reaches a connection that
is still pending. -/
theorem no_initial_state_at_connect :
    COut.initialState ∉ connectConn.2 ∧ connectConn.2 = [] := by
  decide

/-- C8 amended: the current full snapshot is sent as the first message of
a successful authentication (followed by the authenticated
acknowledgement), not at transport connect; a connection that never
authenticates never receives it. -/
theorem initial_state_on_auth_success (c : Conn) (h : c.disconnected = false) :
    (stepConn c (CEvent.authenticate true)).2 =
      [COut.initialState, COut.authenticatedMsg] ∧
    connectConn.2 = [] :=
  ⟨by simp [stepConn, h], rfl⟩

/-- C8 amended witness: evaluated on a fresh connection. -/
theorem initial_state_on_auth_success_witness :
    (stepConn connectConn.1 (CEvent.authenticate true)).2 =
      [COut.initialState, COut.authenticatedMsg] ∧
    connectConn.2 = [] :=
  initial_state_on_auth_success connectConn.1 rfl

/-! ## C5: how defensive the commit copy is -/

/-- Replacing an object and reading it back yields the written fields. -/
theorem heapGet_heapSet_self (h : Heap) (r : Nat) (fs : HFields) :
    heapGet (heapSet h r fs) r = fs := by
  induction h with
  | nil => simp [heapSet, heapGet]
  | cons hd tl ih =>
    obtain ⟨r1, fs1⟩ := hd
    by_cases hr : r1 = r <;> simp [heapSet, heapGet, hr, ih]

/-- Replacing one object leaves every other object unchanged. -/
theorem heapGet_heapSet_ne (h : Heap) (r r2 : Nat) (fs : HFields) (hne : r ≠ r2) :
    heapGet (heapSet h r fs) r2 = heapGet h r2 := by
  induction h with
  | nil => simp [heapSet, heapGet, hne]
  | cons hd tl ih =>
    obtain ⟨r1, fs1⟩ := hd
    by_cases hr : r1 = r
    · subst hr
      simp [heapSet, heapGet, hne]
    · simp [heapSet, heapGet, hr, ih]

/-- C5 fails on the code: the commit copy of `Object.assign` is one level
deep.  Committing the candidate object 0 as the fresh object 2 copies the
reference to the nested object 1 instead of object 1 itself; a later
write through the still-held reference to object 1 changes the value
observed through the committed snapshot in place. -/
theorem object_assign_shallow_counterexample :
    readHVal (setProp (objectAssignAlloc demoHeap 0 2) 1 ("on")
        (HVal.prim (Val.boolean true))) 2 (HVal.ref 2) ≠
      readHVal (objectAssignAlloc demoHeap 0 2) 2 (HVal.ref 2) ∧
    readHVal (objectAssignAlloc demoHeap 0 2) 2 (HVal.ref 2) =
      Val.obj [(("lights"), Val.obj [(("on"), Val.boolean false)])] ∧
    readHVal (setProp (objectAssignAlloc demoHeap 0 2) 1 ("on")
        (HVal.prim (Val.boolean true))) 2 (HVal.ref 2) =
      Val.obj [(("lights"), Val.obj [(("on"), Val.boolean true)])] := by
  decide

/-- C5 amended: the committed snapshot is a top-level defensive copy of
the candidate: the fresh object receives its own copy of the candidate
property list, and no later property write through the candidate
reference — or any reference other than the committed object itself —
can change the committed object own property list; structures nested
below the top level remain shared with the candidate, so writes through
them stay visible, as the counterexample records. -/
theorem object_assign_top_level_copy (h : Heap) (src fresh r : Nat)
    (f : String) (v : HVal) (hne : r ≠ fresh) :
    heapGet (objectAssignAlloc h src fresh) fresh = heapGet h src ∧
    heapGet (setProp (objectAssignAlloc h src fresh) r f v) fresh =
      heapGet (objectAssignAlloc h src fresh) fresh := by
  refine ⟨heapGet_heapSet_self h fresh (heapGet h src), ?_⟩
  exact heapGet_heapSet_ne (objectAssignAlloc h src fresh) r fresh _ hne

/-- C5 amended witness: a top-level write through the candidate object 0
leaves the committed object 2 untouched. -/
theorem object_assign_top_level_copy_witness :
    heapGet (objectAssignAlloc demoHeap 0 2) 2 = heapGet demoHeap 0 ∧
    heapGet (setProp (objectAssignAlloc demoHeap 0 2) 0 ("lights")
        (HVal.prim Val.null)) 2 =
      heapGet (objectAssignAlloc demoHeap 0 2) 2 :=
  object_assign_top_level_copy demoHeap 0 2 0 ("lights") (HVal.prim Val.null)
    (by decide)

end MissionControl
